import Mathlib

/-!
# Verification of the `imaqbindings` wrapper layer

A shallow embedding of `src/imaqbindings/bindings.py` and
`src/imaqbindings/enumerations.py`.  The vendor driver (`imaq.dll`) is
opaque; it is modelled as a record of pure response functions (`Driver`),
one per entry point the wrapper calls, each returning the C status code
(and any out-parameter value) the real driver would write.  Every wrapper
operation is embedded as a pure function that returns the list of raw
driver calls it issued (in order, with the raw integer arguments) together
with its Python-level outcome: a normal result or a raised exception.

Python details that matter and are modelled faithfully:
* ctypes `errcheck` runs `check_error` after every raw call and raises an
  `Exception` with a formatted message when the status is non-zero;
* `Board.close` guards each close with the truthiness of the stored
  ctypes handle (`None` and `c_uint32(0)` are both falsy) and clears the
  field to `None` only after a successful driver close;
* `Board.__init__` contains no `try`/`except`: a failure in
  `_session_open` propagates with the object's fields as they were at
  that point (`_ifid` set, `_sid` still `None`);
* `Buffer.__init__` chooses the numpy dtype through an `if`/`elif` chain
  with no `else`; falling through leaves the local `dtype` unassigned, so
  `np.frombuffer` raises `UnboundLocalError`;
* `Buffer.close` simply calls `__del__`, which disposes the stored
  pointer unconditionally (no disposed-flag);
* `session_serial_read` and `session_serial_read_bytes` carry no
  `@ctypes_sig` decorator, so `errcheck=check_error` is never installed
  on their raw calls: their driver status codes are discarded and the
  buffer slice is returned unconditionally.
Argument tuples inside exception messages are rendered to strings
abstractly (the wrapper only interpolates them into an f-string).
-/

namespace Imaq

/-- `_BASE = 0x3FF60000` from `enumerations.py`. -/
def BASE : Nat := 0x3FF60000

namespace DeviceInformation

/-- `DeviceInformation.IMG_ATTR_GETSERIAL` from `enumerations.py`. -/
def IMG_ATTR_GETSERIAL : Nat := BASE + 0x00C0

/-- `DeviceInformation.IMG_ATTR_CLOCK_FREQ` from `enumerations.py`. -/
def IMG_ATTR_CLOCK_FREQ : Nat := BASE + 0x00BB

/-- `DeviceInformation.IMG_ATTR_COLOR` from `enumerations.py`. -/
def IMG_ATTR_COLOR : Nat := BASE + 0x0003

/-- `DeviceInformation.IMG_ATTR_CURRENT_PORT_NUM` from `enumerations.py`. -/
def IMG_ATTR_CURRENT_PORT_NUM : Nat := BASE + 0x01AE

/-- `DeviceInformation.IMG_ATTR_HASRAM` from `enumerations.py`. -/
def IMG_ATTR_HASRAM : Nat := BASE + 0x0004

/-- `DeviceInformation.IMG_ATTR_INTERFACE_TYPE` from `enumerations.py`. -/
def IMG_ATTR_INTERFACE_TYPE : Nat := BASE + 0x0001

/-- `DeviceInformation.IMG_ATTR_LINESCAN` from `enumerations.py`. -/
def IMG_ATTR_LINESCAN : Nat := BASE + 0x000C

/-- `DeviceInformation.IMG_ATTR_NUM_EXT_LINES` from `enumerations.py`. -/
def IMG_ATTR_NUM_EXT_LINES : Nat := BASE + 0x0012

/-- `DeviceInformation.IMG_ATTR_NUM_ISO_IN_LINES` from `enumerations.py`. -/
def IMG_ATTR_NUM_ISO_IN_LINES : Nat := BASE + 0x01A8

/-- `DeviceInformation.IMG_ATTR_NUM_ISO_OUT_LINES` from `enumerations.py`. -/
def IMG_ATTR_NUM_ISO_OUT_LINES : Nat := BASE + 0x01A9

/-- `DeviceInformation.IMG_ATTR_NUM_PORTS` from `enumerations.py`. -/
def IMG_ATTR_NUM_PORTS : Nat := BASE + 0x01AD

/-- `DeviceInformation.IMG_ATTR_NUM_RTSI_LINES` from `enumerations.py`. -/
def IMG_ATTR_NUM_RTSI_LINES : Nat := BASE + 0x0013

/-- `DeviceInformation.IMG_ATTR_RAMSIZE` from `enumerations.py`. -/
def IMG_ATTR_RAMSIZE : Nat := BASE + 0x0005

end DeviceInformation

/-- The id values of the `DeviceInformation` enumeration, i.e. the
read-only device-information attribute category of `enumerations.py`. -/
def deviceInformationIds : List Nat :=
  [DeviceInformation.IMG_ATTR_CLOCK_FREQ,
   DeviceInformation.IMG_ATTR_COLOR,
   DeviceInformation.IMG_ATTR_CURRENT_PORT_NUM,
   DeviceInformation.IMG_ATTR_GETSERIAL,
   DeviceInformation.IMG_ATTR_HASRAM,
   DeviceInformation.IMG_ATTR_INTERFACE_TYPE,
   DeviceInformation.IMG_ATTR_LINESCAN,
   DeviceInformation.IMG_ATTR_NUM_EXT_LINES,
   DeviceInformation.IMG_ATTR_NUM_ISO_IN_LINES,
   DeviceInformation.IMG_ATTR_NUM_ISO_OUT_LINES,
   DeviceInformation.IMG_ATTR_NUM_PORTS,
   DeviceInformation.IMG_ATTR_NUM_RTSI_LINES,
   DeviceInformation.IMG_ATTR_RAMSIZE]

namespace Image

/-- `Image.IMG_ATTR_INVERT = _BASE + 0x0082` from `enumerations.py`. -/
def IMG_ATTR_INVERT : Nat := BASE + 0x0082

end Image

namespace BufferElement

/-- `BufferElement.IMG_BUFF_ADDRESS` from `enumerations.py`. -/
def IMG_BUFF_ADDRESS : Nat := BASE + 0x007E

/-- `BufferElement.IMG_BUFF_COMMAND` from `enumerations.py`. -/
def IMG_BUFF_COMMAND : Nat := BASE + 0x007F

/-- `BufferElement.IMG_BUFF_SIZE = _BASE + 0x0082` from `enumerations.py`. -/
def IMG_BUFF_SIZE : Nat := BASE + 0x0082

end BufferElement

namespace BufferCommand

/-- `BufferCommand.IMG_CMD_NEXT` from `enumerations.py`. -/
def IMG_CMD_NEXT : Nat := 0x01

/-- `BufferCommand.IMG_CMD_LOOP` from `enumerations.py`. -/
def IMG_CMD_LOOP : Nat := 0x02

/-- `BufferCommand.IMG_CMD_PASS` from `enumerations.py`. -/
def IMG_CMD_PASS : Nat := 0x04

/-- `BufferCommand.IMG_CMD_STOP` from `enumerations.py`. -/
def IMG_CMD_STOP : Nat := 0x08

end BufferCommand

namespace BufferLocation

/-- `BufferLocation.IMG_HOST_FRAME` from `enumerations.py`. -/
def IMG_HOST_FRAME : Nat := 0

end BufferLocation

/-- A Python-level exception raised by the wrapper code. -/
inductive PyError where
  /-- The `Exception` raised by `check_error` (its formatted message). -/
  | exceptionMsg (msg : String)
  /-- A `TypeError`, as raised by `set_buffer_element_command`. -/
  | typeError (msg : String)
  /-- An `UnboundLocalError` for the named local variable. -/
  | unboundLocal (var : String)
deriving DecidableEq, Repr

/-- One raw call into the vendor driver, with its raw integer arguments. -/
inductive DriverCall where
  | interfaceOpen (name : String)
  | sessionOpen (ifid : Nat)
  | close (xid : Nat) (free : Nat)
  | getAttribute (sid : Nat) (attr : Nat)
  | setAttribute (sid : Nat) (attr : Nat) (value : Nat)
  | setBufferElement (bid : Nat) (element : Nat) (itemType : Nat) (itemValue : Nat)
  | createBuffer (sid : Nat) (loc : Nat) (size : Nat)
  | disposeBuffer (ptr : Nat)
  | serialRead (sid : Nat) (bufSize : Nat) (timeoutMs : Nat)
  | serialReadBytes (sid : Nat) (bufSize : Nat) (timeoutMs : Nat)
deriving DecidableEq, Repr

/-- Whether a raw driver call is an `imgClose` call. -/
def DriverCall.isCloseCall : DriverCall → Bool
  | .close _ _ => true
  | _ => false

/-- The opaque vendor driver, modelled as pure response functions: each
entry point returns the status code (and out-parameter values) the real
`imaq.dll` would produce for those arguments.
`serialReadRes`/`serialReadBytesRes` return, for `(sid, bufSize,
timeoutMs)`, the status and the decoded string the call would leave in
the caller's buffer slice.  `showError` is the driver's error-lookup
call `imgShowError`. -/
structure Driver where
  interfaceOpenRes : String → Int × Nat
  sessionOpenRes : Nat → Int × Nat
  closeRes : Nat → Nat → Int
  getAttributeRes : Nat → Nat → Int × Nat
  setAttributeRes : Nat → Nat → Nat → Int
  setBufferElementRes : Nat → Nat → Nat → Nat → Int
  createBufferRes : Nat → Nat → Nat → Int × Nat
  disposeBufferRes : Nat → Int
  serialReadRes : Nat → Nat → Nat → Int × String
  serialReadBytesRes : Nat → Nat → Nat → Int × String
  showError : Int → String

/-- `check_error` from `bindings.py`: installed as the ctypes `errcheck`
of every wrapped function; a non-zero status looks the message up via the
driver's `imgShowError` and raises
`Exception(f"Error calling function {func.__name__} with arguments {arguments} : {imaq_error_str}")`;
a zero status raises nothing. -/
def check_error (drv : Driver) (result : Int) (funcName : String)
    (argsRepr : String) : Option PyError :=
  if result ≠ 0 then
    some (.exceptionMsg ("Error calling function " ++ funcName ++
      " with arguments " ++ argsRepr ++ " : " ++ drv.showError result))
  else
    none

/-- Outcome of one wrapper operation: the raw driver calls it issued, in
order, and its Python-level result (normal return or raised exception). -/
structure Res (α : Type) where
  calls : List DriverCall
  out : Except PyError α
deriving Repr

/-- Whether an `Except` outcome is a raised exception. -/
def isErr {ε α : Type} : Except ε α → Bool
  | .error _ => true
  | .ok _ => false

end Imaq

namespace Imaq

/-- The `_ifid` / `_sid` / `_bid` fields of a `Board` object.  A field is
`none` when the Python attribute is `None`, and `some v` when it holds a
`ctypes.c_uint32` of value `v`. -/
structure BoardState where
  ifid : Option Nat
  sid : Option Nat
  bid : Option Nat
deriving DecidableEq, Repr

/-- Python truthiness of a handle field: `None` is falsy, and so is a
`ctypes.c_uint32` holding 0; any non-zero `c_uint32` is truthy. -/
def truthy : Option Nat → Bool
  | none => false
  | some v => v ≠ 0

/-- Outcome of `Board.__init__`: the driver calls issued, the Python
result (the constructed object or the propagated exception), and the
object's field state at the moment `__init__` returned or raised. -/
structure InitRes where
  calls : List DriverCall
  result : Except PyError BoardState
  objState : BoardState
deriving Repr

/-- `Board.__init__` from `bindings.py`: sets `_ifid`, `_sid`, `_bid` to
`None`, then `_ifid = _interface_open(device_name)` (raw call
`imgInterfaceOpen`, checked by `check_error`), then
`_sid = _session_open()` (raw call `imgSessionOpen(self._ifid, ...)`,
checked by `check_error`).  There is no `try`/`except`: an exception from
either call propagates with the fields as assigned so far. -/
def boardInit (drv : Driver) (deviceName : String) : InitRes :=
  match drv.interfaceOpenRes deviceName with
  | (status1, ifidVal) =>
    match check_error drv status1 ("imgInterfaceOpen") deviceName with
    | some e => ⟨[.interfaceOpen deviceName], .error e, ⟨none, none, none⟩⟩
    | none =>
      match drv.sessionOpenRes ifidVal with
      | (status2, sidVal) =>
        match check_error drv status2 ("imgSessionOpen") (toString ifidVal) with
        | some e => ⟨[.interfaceOpen deviceName, .sessionOpen ifidVal],
                     .error e, ⟨some ifidVal, none, none⟩⟩
        | none => ⟨[.interfaceOpen deviceName, .sessionOpen ifidVal],
                   .ok ⟨some ifidVal, some sidVal, none⟩,
                   ⟨some ifidVal, some sidVal, none⟩⟩

/-- One guarded close step of `Board.close`:
`if self._x: self._close(self._x, free_resources); self._x = None`.
Returns the raw calls issued, the exception (if the checked `imgClose`
raised, in which case the field is left unchanged) and the new field. -/
def closeHandle (drv : Driver) (h : Option Nat) (freeN : Nat) :
    List DriverCall × Option PyError × Option Nat :=
  if truthy h then
    match check_error drv (drv.closeRes (h.getD 0) freeN) ("imgClose")
        (toString (h.getD 0)) with
    | some e => ([.close (h.getD 0) freeN], some e, h)
    | none => ([.close (h.getD 0) freeN], none, none)
  else
    ([], none, h)

/-- Outcome of `Board.close`: raw calls issued, exception if one was
raised, and the object's field state afterwards. -/
structure CloseRes where
  calls : List DriverCall
  err : Option PyError
  state : BoardState
deriving Repr

/-- `Board.close` from `bindings.py`: closes the session handle (guarded
by its truthiness, clearing `_sid` on success), then the interface handle
likewise.  An exception from the first `_close` propagates before the
interface close is attempted. -/
def boardClose (drv : Driver) (st : BoardState) (freeResources : Bool) : CloseRes :=
  match closeHandle drv st.sid (if freeResources then 1 else 0) with
  | (c1, some e, sid') => ⟨c1, some e, { st with sid := sid' }⟩
  | (c1, none, sid') =>
    match closeHandle drv st.ifid (if freeResources then 1 else 0) with
    | (c2, e2, ifid') => ⟨c1 ++ c2, e2, { st with sid := sid', ifid := ifid' }⟩

/-- `Board.get_attribute` from `bindings.py`: raw call
`imgGetAttribute(self._sid, attr, byref(value))`, checked by
`check_error`; returns the out-parameter value. -/
def get_attribute (drv : Driver) (sid : Nat) (attr : Nat) : Res Nat :=
  match drv.getAttributeRes sid attr with
  | (status, v) =>
    match check_error drv status ("imgGetAttribute")
        (toString sid ++ ", " ++ toString attr) with
    | some e => ⟨[.getAttribute sid attr], .error e⟩
    | none => ⟨[.getAttribute sid attr], .ok v⟩

/-- `Board.set_attribute` from `bindings.py`: raw call
`imgSetAttribute(self._sid, attr, value)`, checked by `check_error`.
The method performs no validation of its own. -/
def set_attribute (drv : Driver) (sid : Nat) (attr : Nat) (value : Nat) : Res Unit :=
  match check_error drv (drv.setAttributeRes sid attr value) ("imgSetAttribute")
      (toString sid ++ ", " ++ toString attr ++ ", " ++ toString value) with
  | some e => ⟨[.setAttribute sid attr value], .error e⟩
  | none => ⟨[.setAttribute sid attr value], .ok ()⟩

/-- `Board.set_buffer_element` from `bindings.py`: raw call
`imgSetBufferElement(self._bid, element, item_type, item_value)`, checked
by `check_error`. -/
def set_buffer_element (drv : Driver) (bid : Nat) (element : Nat)
    (itemType : Nat) (itemValue : Nat) : Res Unit :=
  match check_error drv (drv.setBufferElementRes bid element itemType itemValue)
      ("imgSetBufferElement")
      (toString bid ++ ", " ++ toString element ++ ", " ++ toString itemType
        ++ ", " ++ toString itemValue) with
  | some e => ⟨[.setBufferElement bid element itemType itemValue], .error e⟩
  | none => ⟨[.setBufferElement bid element itemType itemValue], .ok ()⟩

/-- `Board.set_buffer_element_size` from `bindings.py`: convenience
method, calls `set_buffer_element(element, IMG_BUFF_SIZE, size_bytes)`. -/
def set_buffer_element_size (drv : Driver) (bid : Nat) (element : Nat)
    (sizeBytes : Nat) : Res Unit :=
  set_buffer_element drv bid element BufferElement.IMG_BUFF_SIZE sizeBytes

/-- Python's `str.lower()` on the ASCII tokens involved here: maps the
basic-latin lower-casing over the characters.  (Extensionally the same
function as `String.toLower`, written as a structural `List.map` so that
it evaluates inside the kernel.) -/
def pyLower (s : String) : String := ⟨s.data.map Char.toLower⟩

/-- The command-token dispatch of `Board.set_buffer_element_command`:
lower-cases the token, then the `if`/`elif` chain over `"next"`,
`"loop"`, `"pass"`, `"stop"` selects the `BufferCommand` code; any other
token falls to the `else` branch (`none` here, the `raise` in Python). -/
def parseBufferCommand (command : String) : Option Nat :=
  if pyLower command = "next" then some BufferCommand.IMG_CMD_NEXT
  else if pyLower command = "loop" then some BufferCommand.IMG_CMD_LOOP
  else if pyLower command = "pass" then some BufferCommand.IMG_CMD_PASS
  else if pyLower command = "stop" then some BufferCommand.IMG_CMD_STOP
  else none

/-- `Board.set_buffer_element_command` from `bindings.py`: parses the
token (case-insensitively); an unrecognised token raises
`TypeError("Unrecognized buffer element command")` before any driver
call; a recognised one calls
`set_buffer_element(element, IMG_BUFF_COMMAND, buf_cmd)`. -/
def set_buffer_element_command (drv : Driver) (bid : Nat) (element : Nat)
    (command : String) : Res Unit :=
  match parseBufferCommand command with
  | none => ⟨[], .error (.typeError ("Unrecognized buffer element command"))⟩
  | some bufCmd => set_buffer_element drv bid element BufferElement.IMG_BUFF_COMMAND bufCmd

/-- The numpy dtype of a `Buffer` view. -/
inductive Dtype where
  | uint8
  | uint16
deriving DecidableEq, Repr

/-- The state of a constructed `Buffer` object: `_size_bytes`, the
address of the driver-allocated region (`_adr`), and the dtype and shape
of the exposed numpy view (`self.buffer`). -/
structure BufState where
  sizeBytes : Nat
  adr : Nat
  dtype : Dtype
  viewShape : List Nat
deriving DecidableEq, Repr

/-- `Buffer.__init__` from `bindings.py`, for a two-element `shape`
tuple `(rows, cols)`: computes `_size_bytes = np.prod(shape) * bytes_per_pixel`,
issues the raw `imgCreateBuffer(sid, IMG_HOST_FRAME, _size_bytes, ...)`
call (checked by `check_error`), then selects the numpy dtype through the
`if`/`elif` chain on `bytes_per_pixel` (1 → uint8; 2 → uint16; 3 or 4 →
uint8 and `shape = (shape[0], shape[1], bytes_per_pixel)`).  The chain has
no `else`: for any other `bytes_per_pixel` the local `dtype` is never
assigned and `np.frombuffer(..., dtype=dtype)` raises
`UnboundLocalError` — after the driver allocation has already happened.

`bufferDtype` is the value of the `dtype` local after the chain (`none`
standing for "never assigned"). -/
def bufferDtype (bytesPerPixel : Nat) : Option Dtype :=
  if bytesPerPixel = 1 then some .uint8
  else if bytesPerPixel = 2 then some .uint16
  else if bytesPerPixel = 3 ∨ bytesPerPixel = 4 then some .uint8
  else none

/-- The final value of the `shape` local of `Buffer.__init__`: rebound to
`(shape[0], shape[1], bytes_per_pixel)` in the 3/4 bytes-per-pixel branch,
left at `(rows, cols)` otherwise. -/
def bufferShape (rows cols bytesPerPixel : Nat) : List Nat :=
  if bytesPerPixel = 3 ∨ bytesPerPixel = 4 then [rows, cols, bytesPerPixel]
  else [rows, cols]

/-- The body of `Buffer.__init__`: the checked raw `imgCreateBuffer`
call, then the dtype/shape selection (`bufferDtype` / `bufferShape`),
raising `UnboundLocalError` on a never-assigned `dtype`. -/
def bufferInit (drv : Driver) (sid : Nat) (rows cols : Nat)
    (bytesPerPixel : Nat) : Res BufState :=
  match drv.createBufferRes sid BufferLocation.IMG_HOST_FRAME
      (rows * cols * bytesPerPixel) with
  | (status, addr) =>
    match check_error drv status ("imgCreateBuffer")
        (toString sid ++ ", 0, " ++ toString (rows * cols * bytesPerPixel)) with
    | some e =>
      ⟨[.createBuffer sid BufferLocation.IMG_HOST_FRAME (rows * cols * bytesPerPixel)],
       .error e⟩
    | none =>
      match bufferDtype bytesPerPixel with
      | none =>
        ⟨[.createBuffer sid BufferLocation.IMG_HOST_FRAME (rows * cols * bytesPerPixel)],
         .error (.unboundLocal ("dtype"))⟩
      | some d =>
        ⟨[.createBuffer sid BufferLocation.IMG_HOST_FRAME (rows * cols * bytesPerPixel)],
         .ok ⟨rows * cols * bytesPerPixel, addr, d, bufferShape rows cols bytesPerPixel⟩⟩

/-- `Buffer.close` / `Buffer.__del__` from `bindings.py`: `close` calls
`__del__`, which issues the raw `imgDisposeBuffer(self._ptr)` call
(checked by `check_error`) unconditionally — there is no disposed flag and
`_ptr` is never cleared, so the object's state is unchanged. -/
def bufferClose (drv : Driver) (ptr : Nat) : Res Unit :=
  match check_error drv (drv.disposeBufferRes ptr) ("imgDisposeBuffer") (toString ptr) with
  | some e => ⟨[.disposeBuffer ptr], .error e⟩
  | none => ⟨[.disposeBuffer ptr], .ok ()⟩

/-- `Board.session_serial_read` from `bindings.py`: allocates a
`buffer_size` string buffer and issues the raw
`imgSessionSerialRead(self._sid, buffer, buf_size_p, timeout_ms)` call.
Unlike the other wrappers this method carries no `@ctypes_sig`
decorator, so neither a signature nor `errcheck=check_error` is ever
installed on `imgSessionSerialRead`: the returned status code is
discarded, no exception can arise from it, and the method
unconditionally returns `buffer.raw[:buf_size.value].decode('ascii')`
(modelled as the string the driver left in that slice). -/
def session_serial_read (drv : Driver) (sid : Nat) (bufferSize : Nat)
    (timeoutMs : Nat) : Res String :=
  ⟨[.serialRead sid bufferSize timeoutMs],
   .ok (drv.serialReadRes sid bufferSize timeoutMs).2⟩

/-- `Board.session_serial_read_bytes` from `bindings.py`: identical
shape to `session_serial_read` but issues the raw
`imgSessionSerialReadBytes` call; it too has no `@ctypes_sig` decorator,
so its status code is discarded and the buffer slice is returned
unconditionally. -/
def session_serial_read_bytes (drv : Driver) (sid : Nat) (bufferSize : Nat)
    (timeoutMs : Nat) : Res String :=
  ⟨[.serialReadBytes sid bufferSize timeoutMs],
   .ok (drv.serialReadBytesRes sid bufferSize timeoutMs).2⟩

/-- A driver model in which every call succeeds (status 0): interface
handles resolve to 7, sessions to 5, allocations land at address 4096. -/
def zeroDriver : Driver where
  interfaceOpenRes := fun _ => (0, 7)
  sessionOpenRes := fun _ => (0, 5)
  closeRes := fun _ _ => 0
  getAttributeRes := fun _ _ => (0, 0)
  setAttributeRes := fun _ _ _ => 0
  setBufferElementRes := fun _ _ _ _ => 0
  createBufferRes := fun _ _ _ => (0, 4096)
  disposeBufferRes := fun _ => 0
  serialReadRes := fun _ _ _ => (0, "")
  serialReadBytesRes := fun _ _ _ => (0, "")
  showError := fun _ => ""

/-- A driver model in which `imgInterfaceOpen` succeeds (handle 7) and
`imgSessionOpen` then fails with the status code -1074397163; every other
call succeeds. -/
def failSessionDriver : Driver where
  interfaceOpenRes := fun _ => (0, 7)
  sessionOpenRes := fun _ => (-1074397163, 0)
  closeRes := fun _ _ => 0
  getAttributeRes := fun _ _ => (0, 0)
  setAttributeRes := fun _ _ _ => 0
  setBufferElementRes := fun _ _ _ _ => 0
  createBufferRes := fun _ _ _ => (0, 4096)
  disposeBufferRes := fun _ => 0
  serialReadRes := fun _ _ _ => (0, "")
  serialReadBytesRes := fun _ _ _ => (0, "")
  showError := fun _ => "Unable to open session."

/-- A driver model whose serial reads report the non-zero status
-1074397150 (a timeout) while leaving "ACK" in the caller's buffer;
every other call succeeds. -/
def failSerialDriver : Driver where
  interfaceOpenRes := fun _ => (0, 7)
  sessionOpenRes := fun _ => (0, 5)
  closeRes := fun _ _ => 0
  getAttributeRes := fun _ _ => (0, 0)
  setAttributeRes := fun _ _ _ => 0
  setBufferElementRes := fun _ _ _ _ => 0
  createBufferRes := fun _ _ _ => (0, 4096)
  disposeBufferRes := fun _ => 0
  serialReadRes := fun _ _ _ => (-1074397150, "ACK")
  serialReadBytesRes := fun _ _ _ => (-1074397150, "ACK")
  showError := fun _ => "Serial timeout."

end Imaq

namespace Imaq

/-! ## Helper lemmas -/

lemma check_error_zero (drv : Driver) (fn ar : String) :
    check_error drv 0 fn ar = none := rfl

lemma check_error_none_iff (drv : Driver) (r : Int) (fn ar : String) :
    check_error drv r fn ar = none ↔ r = 0 := by
  unfold check_error
  split_ifs with h <;> simp_all

lemma check_error_isSome_iff (drv : Driver) (r : Int) (fn ar : String) :
    (check_error drv r fn ar).isSome ↔ r ≠ 0 := by
  unfold check_error
  split_ifs with h <;> simp_all

lemma check_error_of_ne (drv : Driver) (r : Int) (fn ar : String) (h : r ≠ 0) :
    check_error drv r fn ar =
      some (.exceptionMsg ("Error calling function " ++ fn ++
        " with arguments " ++ ar ++ " : " ++ drv.showError r)) := by
  unfold check_error
  split_ifs
  simp_all

lemma set_attribute_calls (drv : Driver) (sid attr value : Nat) :
    (set_attribute drv sid attr value).calls = [.setAttribute sid attr value] := by
  unfold set_attribute
  split <;> rfl

lemma get_attribute_calls (drv : Driver) (sid attr : Nat) :
    (get_attribute drv sid attr).calls = [.getAttribute sid attr] := by
  unfold get_attribute
  split
  split <;> rfl

lemma set_buffer_element_calls (drv : Driver) (bid element itemType itemValue : Nat) :
    (set_buffer_element drv bid element itemType itemValue).calls
      = [.setBufferElement bid element itemType itemValue] := by
  unfold set_buffer_element
  split <;> rfl

lemma set_attribute_ok_iff (drv : Driver) (sid attr value : Nat) :
    (set_attribute drv sid attr value).out = .ok ()
      ↔ drv.setAttributeRes sid attr value = 0 := by
  unfold set_attribute
  split
  next e he =>
    rw [← check_error_none_iff drv _ ("imgSetAttribute")
      (toString sid ++ ", " ++ toString attr ++ ", " ++ toString value)]
    simp_all
  next he =>
    rw [check_error_none_iff] at he
    simp_all

lemma set_attribute_isErr_iff (drv : Driver) (sid attr value : Nat) :
    isErr (set_attribute drv sid attr value).out = true
      ↔ drv.setAttributeRes sid attr value ≠ 0 := by
  unfold set_attribute
  split
  next e he =>
    constructor
    · intro _ h0
      rw [h0, check_error_zero] at he
      exact Option.noConfusion he
    · intro _
      rfl
  next he =>
    rw [check_error_none_iff] at he
    simp_all [isErr]

lemma get_attribute_isErr_iff (drv : Driver) (sid attr : Nat) :
    isErr (get_attribute drv sid attr).out = true
      ↔ (drv.getAttributeRes sid attr).1 ≠ 0 := by
  unfold get_attribute
  split
  next status v hp =>
    rw [hp]
    split
    next e he =>
      constructor
      · intro _ h0
        have h0' : status = 0 := h0
        rw [h0', check_error_zero] at he
        exact Option.noConfusion he
      · intro _
        rfl
    next he =>
      rw [check_error_none_iff] at he
      simp_all [isErr]

lemma closeHandle_not_truthy (drv : Driver) (h : Option Nat) (n : Nat)
    (ht : truthy h = false) : closeHandle drv h n = ([], none, h) := by
  unfold closeHandle
  simp [ht]

lemma closeHandle_no_err_not_truthy (drv : Driver) (h : Option Nat) (n : Nat)
    (he : (closeHandle drv h n).2.1 = none) :
    truthy (closeHandle drv h n).2.2 = false := by
  unfold closeHandle at he ⊢
  by_cases ht : truthy h = true
  · rw [if_pos ht] at he ⊢
    cases hce : check_error drv (drv.closeRes (h.getD 0) n) ("imgClose") (toString (h.getD 0)) with
    | some e =>
      rw [hce] at he
      exact absurd he (by simp)
    | none =>
      rfl
  · rw [if_neg ht] at he ⊢
    simpa using ht

lemma closeHandle_truthy_calls (drv : Driver) (h : Option Nat) (n : Nat)
    (ht : truthy h = true) :
    (closeHandle drv h n).1 = [.close (h.getD 0) n] := by
  unfold closeHandle
  rw [if_pos ht]
  split <;> rfl

lemma bufferClose_calls (drv : Driver) (ptr : Nat) :
    (bufferClose drv ptr).calls = [.disposeBuffer ptr] := by
  unfold bufferClose
  split <;> rfl

lemma set_buffer_element_isErr_iff (drv : Driver) (bid element itemType itemValue : Nat) :
    isErr (set_buffer_element drv bid element itemType itemValue).out = true
      ↔ drv.setBufferElementRes bid element itemType itemValue ≠ 0 := by
  unfold set_buffer_element
  split
  next e he =>
    constructor
    · intro _ h0
      rw [h0, check_error_zero] at he
      exact Option.noConfusion he
    · intro _
      rfl
  next he =>
    rw [check_error_none_iff] at he
    simp_all [isErr]

lemma bufferClose_isErr_iff (drv : Driver) (ptr : Nat) :
    isErr (bufferClose drv ptr).out = true ↔ drv.disposeBufferRes ptr ≠ 0 := by
  unfold bufferClose
  split
  next e he =>
    constructor
    · intro _ h0
      rw [h0, check_error_zero] at he
      exact Option.noConfusion he
    · intro _
      rfl
  next he =>
    rw [check_error_none_iff] at he
    simp_all [isErr]

/-! ## Claim theorems -/

/-- Counterexample to claim C1 as stated over EVERY wrapped driver call:
`session_serial_read` and `session_serial_read_bytes` carry no
`@ctypes_sig` decorator, so `errcheck=check_error` is never installed on
their raw calls.  With a driver whose serial read reports the non-zero
status -1074397150, the wrapped call raises nothing and returns the
buffer contents — even though `check_error` would raise for that very
status had it been installed.  So "raises an error iff the status is
non-zero" fails for these two wrapped calls. -/
theorem c1_counterexample :
    (failSerialDriver.serialReadRes 5 256 500).1 = -1074397150
    ∧ session_serial_read failSerialDriver 5 256 500
        = ⟨[.serialRead 5 256 500], .ok ("ACK")⟩
    ∧ isErr (session_serial_read failSerialDriver 5 256 500).out = false
    ∧ isErr (session_serial_read_bytes failSerialDriver 5 8 500).out = false
    ∧ (check_error failSerialDriver (-1074397150) ("imgSessionSerialRead") ("5")).isSome
        = true :=
  ⟨rfl, rfl, rfl, rfl, rfl⟩

/-- Claim C1 as amended: every wrapped driver call that routes through
`check_error` (the `@ctypes_sig`-decorated wrappers) raises an error if
and only if the driver status code is non-zero, the raised error carrying
the failing operation's name, the arguments it was called with, and the
driver-supplied message obtained from the error-lookup call
`imgShowError`, and a zero status raising nothing — but the two
serial-read wrappers install no `errcheck` at all, so they raise nothing
even when the driver reports a non-zero status.  Stated for `check_error`
itself and for the `set_attribute` / `get_attribute` /
`set_buffer_element` / `bufferClose` wrappers, and for both serial
reads. -/
theorem c1_check_error_translates_status (drv : Driver) (result : Int)
    (funcName argsRepr : String)
    (sid attr value bid element itemType itemValue ptr bufSize timeoutMs : Nat) :
    ((check_error drv result funcName argsRepr).isSome ↔ result ≠ 0)
    ∧ check_error drv 0 funcName argsRepr = none
    ∧ (result ≠ 0 → check_error drv result funcName argsRepr =
        some (PyError.exceptionMsg ("Error calling function " ++ funcName ++
          " with arguments " ++ argsRepr ++ " : " ++ drv.showError result)))
    ∧ (isErr (set_attribute drv sid attr value).out = true
        ↔ drv.setAttributeRes sid attr value ≠ 0)
    ∧ (isErr (get_attribute drv sid attr).out = true
        ↔ (drv.getAttributeRes sid attr).1 ≠ 0)
    ∧ (isErr (set_buffer_element drv bid element itemType itemValue).out = true
        ↔ drv.setBufferElementRes bid element itemType itemValue ≠ 0)
    ∧ (isErr (bufferClose drv ptr).out = true ↔ drv.disposeBufferRes ptr ≠ 0)
    ∧ isErr (session_serial_read drv sid bufSize timeoutMs).out = false
    ∧ isErr (session_serial_read_bytes drv sid bufSize timeoutMs).out = false :=
  ⟨check_error_isSome_iff drv result funcName argsRepr,
   check_error_zero drv funcName argsRepr,
   fun h => check_error_of_ne drv result funcName argsRepr h,
   set_attribute_isErr_iff drv sid attr value,
   get_attribute_isErr_iff drv sid attr,
   set_buffer_element_isErr_iff drv bid element itemType itemValue,
   bufferClose_isErr_iff drv ptr,
   rfl,
   rfl⟩

/-- Witness for C1 (amended) at the concrete status -1074397163 (error
raised, with the formatted message), at status 0 (nothing raised), and
for a serial read whose driver status is non-zero (nothing raised). -/
theorem c1_witness :
    check_error zeroDriver (-1074397163) ("imgSessionOpen") ("7") =
      some (PyError.exceptionMsg ("Error calling function imgSessionOpen with arguments 7 : "))
    ∧ check_error zeroDriver 0 ("imgSessionOpen") ("7") = none
    ∧ isErr (session_serial_read failSerialDriver 5 256 500).out = false :=
  ⟨(c1_check_error_translates_status zeroDriver (-1074397163) ("imgSessionOpen")
      ("7") 1 2 3 1 0 1 1 1 1 1).2.2.1 (by decide),
   (c1_check_error_translates_status zeroDriver 0 ("imgSessionOpen") ("7")
      1 2 3 1 0 1 1 1 1 1).2.1,
   (c1_check_error_translates_status failSerialDriver 0 ("x") ("y")
      5 0 0 0 0 0 0 0 256 500).2.2.2.2.2.2.2.1⟩

/-- Claim C9 (code bug in the source): `Buffer` disposal is NOT
idempotent.  `Buffer.close` calls `__del__`, which unconditionally issues
`imgDisposeBuffer(self._ptr)`; nothing records that the buffer was
already disposed, so a second close (or the interpreter's own `__del__`
at garbage collection after an explicit `close`) issues a second driver
dispose call for the same memory region. -/
theorem c9_buffer_double_dispose (drv : Driver) (ptr : Nat) :
    (bufferClose drv ptr).calls ++ (bufferClose drv ptr).calls
      = [.disposeBuffer ptr, .disposeBuffer ptr] := by
  rw [bufferClose_calls]
  rfl

/-- Claim C10: `Image.IMG_ATTR_INVERT` and `BufferElement.IMG_BUFF_SIZE`
are the same integer, `0x3FF60000 + 0x0082`; a set/get-attribute call
with the invert attribute and a buffer-element call with the size item
type pass the exact same raw integer `0x3FF60082` to the driver. -/
theorem c10_invert_buffsize_collision (drv : Driver) (sid bid e v : Nat) :
    Image.IMG_ATTR_INVERT = BufferElement.IMG_BUFF_SIZE
    ∧ Image.IMG_ATTR_INVERT = 0x3FF60000 + 0x0082
    ∧ (set_attribute drv sid Image.IMG_ATTR_INVERT v).calls
        = [.setAttribute sid (0x3FF60082) v]
    ∧ (get_attribute drv sid Image.IMG_ATTR_INVERT).calls
        = [.getAttribute sid (0x3FF60082)]
    ∧ (set_buffer_element_size drv bid e v).calls
        = [.setBufferElement bid e (0x3FF60082) v] := by
  refine ⟨rfl, rfl, ?_, ?_, ?_⟩
  · rw [set_attribute_calls]
    rfl
  · rw [get_attribute_calls]
    rfl
  · unfold set_buffer_element_size
    rw [set_buffer_element_calls]
    rfl

/-- Claim C4: `set_buffer_element_command` parses its token
case-insensitively and is total over exactly the four strings `"next"`,
`"loop"`, `"pass"`, `"stop"`, mapped to the driver command codes
`IMG_CMD_NEXT`/`IMG_CMD_LOOP`/`IMG_CMD_PASS`/`IMG_CMD_STOP`; for every
other string it raises the unrecognized-command error without issuing
any driver call, while a recognised token issues exactly
`imgSetBufferElement(bid, element, IMG_BUFF_COMMAND, code)`. -/
theorem c4_buffer_command_parsing (drv : Driver) (bid e : Nat) (s : String) :
    (parseBufferCommand s = some BufferCommand.IMG_CMD_NEXT ↔ pyLower s = "next")
    ∧ (parseBufferCommand s = some BufferCommand.IMG_CMD_LOOP ↔ pyLower s = "loop")
    ∧ (parseBufferCommand s = some BufferCommand.IMG_CMD_PASS ↔ pyLower s = "pass")
    ∧ (parseBufferCommand s = some BufferCommand.IMG_CMD_STOP ↔ pyLower s = "stop")
    ∧ (parseBufferCommand s = none ↔
        ¬(pyLower s = "next" ∨ pyLower s = "loop" ∨ pyLower s = "pass" ∨ pyLower s = "stop"))
    ∧ (parseBufferCommand s = none →
        set_buffer_element_command drv bid e s =
          ⟨[], .error (.typeError ("Unrecognized buffer element command"))⟩)
    ∧ (∀ cmd : Nat, parseBufferCommand s = some cmd →
        (set_buffer_element_command drv bid e s).calls =
          [.setBufferElement bid e BufferElement.IMG_BUFF_COMMAND cmd]) := by
  unfold set_buffer_element_command parseBufferCommand
  split_ifs with h1 h2 h3 h4 <;>
    simp_all [BufferCommand.IMG_CMD_NEXT, BufferCommand.IMG_CMD_LOOP,
      BufferCommand.IMG_CMD_PASS, BufferCommand.IMG_CMD_STOP, set_buffer_element_calls]

/-- Witness for C4: the mixed-case token `"LOOP"` is accepted and issues
the driver call with command code 2; the token `"fnord"` is rejected with
the unrecognized-command error and no driver call. -/
theorem c4_witness :
    (set_buffer_element_command zeroDriver 3 0 ("LOOP")).calls
      = [.setBufferElement 3 0 BufferElement.IMG_BUFF_COMMAND 2]
    ∧ set_buffer_element_command zeroDriver 3 0 ("fnord")
      = ⟨[], .error (.typeError ("Unrecognized buffer element command"))⟩ :=
  ⟨(c4_buffer_command_parsing zeroDriver 3 0 ("LOOP")).2.2.2.2.2.2 2 (by rfl),
   (c4_buffer_command_parsing zeroDriver 3 0 ("fnord")).2.2.2.2.2.1 (by rfl)⟩

/-- Counterexample to claim C5: the token `"continue"` is NOT accepted by
`set_buffer_element_command`; it is rejected with the
unrecognized-command `TypeError` and no driver call is issued (the
accepted set is `{"next","loop","pass","stop"}`, not
`{"continue","loop","pass","stop"}`). -/
theorem c5_counterexample :
    set_buffer_element_command zeroDriver 3 0 ("continue")
      = ⟨[], .error (.typeError ("Unrecognized buffer element command"))⟩
    ∧ parseBufferCommand ("continue") = none :=
  ⟨rfl, rfl⟩

/-- Claim C5 as amended: `set_buffer_element_command` validates the token
case-insensitively against the fixed set `{"next","loop","pass","stop"}`
(not `{"continue",...}`): a token is accepted exactly when its
lower-casing is in that set, and any other token — `"continue"` included —
fails with the unrecognized-command error before any driver call. -/
theorem c5_command_validation_set (drv : Driver) (bid e : Nat) (s : String) :
    ((parseBufferCommand s).isSome ↔
      (pyLower s = "next" ∨ pyLower s = "loop" ∨ pyLower s = "pass" ∨ pyLower s = "stop"))
    ∧ ((parseBufferCommand s).isNone →
        set_buffer_element_command drv bid e s =
          ⟨[], .error (.typeError ("Unrecognized buffer element command"))⟩)
    ∧ parseBufferCommand ("continue") = none := by
  refine ⟨?_, ?_, rfl⟩
  · unfold parseBufferCommand
    split_ifs with h1 h2 h3 h4 <;> simp_all
  · intro hN
    unfold set_buffer_element_command
    rw [Option.isNone_iff_eq_none] at hN
    rw [hN]

/-- Witness for C5 (amended): the token `"Pause"` is outside the set and
is rejected with the unrecognized-command error and no driver call. -/
theorem c5_witness :
    set_buffer_element_command zeroDriver 9 1 ("Pause")
      = ⟨[], .error (.typeError ("Unrecognized buffer element command"))⟩ :=
  (c5_command_validation_set zeroDriver 9 1 ("Pause")).2.1 (by rfl)

/-- Claim C6: for every successfully constructed `Buffer` with shape
`(rows, cols)`: with `bytes_per_pixel = 1` the exposed view has unsigned
8-bit elements and shape `(rows, cols)`; with 2, unsigned 16-bit elements
and shape `(rows, cols)`; with 3 or 4, unsigned 8-bit elements and shape
`(rows, cols, bytes_per_pixel)`.  The buffer's byte size is
`rows * cols * bytes_per_pixel` in every case. -/
theorem c6_buffer_view_dtype_shape (drv : Driver) (sid rows cols bpp : Nat)
    (st : BufState) (h : (bufferInit drv sid rows cols bpp).out = .ok st) :
    (bpp = 1 → st.dtype = .uint8 ∧ st.viewShape = [rows, cols])
    ∧ (bpp = 2 → st.dtype = .uint16 ∧ st.viewShape = [rows, cols])
    ∧ (bpp = 3 ∨ bpp = 4 → st.dtype = .uint8 ∧ st.viewShape = [rows, cols, bpp])
    ∧ st.sizeBytes = rows * cols * bpp := by
  unfold bufferInit at h
  split at h
  next status addr hp =>
    split at h
    next e he => exact absurd h (by simp)
    next he =>
      split at h
      next hdt => exact absurd h (by simp)
      next d hdt =>
        unfold bufferDtype at hdt
        unfold bufferShape at h
        rw [Except.ok.injEq] at h
        subst h
        split_ifs at hdt with h1 h2 h34 <;> simp_all

/-- Witness for C6: with a succeeding driver, shape `(4, 6)` and 2 bytes
per pixel, the constructed buffer's view has `uint16` elements, shape
`[4, 6]`, and 48 bytes. -/
theorem c6_witness :
    (bufferInit zeroDriver 5 4 6 2).out
      = .ok (⟨48, 4096, .uint16, [4, 6]⟩ : BufState)
    ∧ BufState.dtype ⟨48, 4096, .uint16, [4, 6]⟩ = .uint16
    ∧ BufState.viewShape ⟨48, 4096, .uint16, [4, 6]⟩ = [4, 6] :=
  ⟨rfl,
   ((c6_buffer_view_dtype_shape zeroDriver 5 4 6 2 ⟨48, 4096, .uint16, [4, 6]⟩ rfl).2.1 rfl).1,
   ((c6_buffer_view_dtype_shape zeroDriver 5 4 6 2 ⟨48, 4096, .uint16, [4, 6]⟩ rfl).2.1 rfl).2⟩

/-- Counterexample to claim C7: constructing a `Buffer` with
`bytes_per_pixel = 5` (shape `(2, 2)`, succeeding driver) does NOT fail
with a dedicated unsupported-pixel-format validation error: the driver
allocation `imgCreateBuffer` is issued first, and the constructor then
raises `UnboundLocalError` for the local `dtype` (the `if`/`elif` chain
has no `else`). -/
theorem c7_counterexample :
    bufferInit zeroDriver 5 2 2 5
      = ⟨[.createBuffer 5 0 20], .error (.unboundLocal ("dtype"))⟩ := rfl

/-- Claim C7 as amended: constructing a `Buffer` with a bytes-per-pixel
value outside `{1, 2, 3, 4}` always fails, but not with a dedicated
unsupported-pixel-format error: when the driver allocation succeeds, the
failure is an `UnboundLocalError` on the never-assigned local `dtype`,
raised only after the `imgCreateBuffer` driver call has been issued. -/
theorem c7_unbound_dtype_failure (drv : Driver) (sid rows cols bpp : Nat)
    (h1 : bpp ≠ 1) (h2 : bpp ≠ 2) (h3 : bpp ≠ 3) (h4 : bpp ≠ 4) :
    isErr (bufferInit drv sid rows cols bpp).out = true
    ∧ ((drv.createBufferRes sid BufferLocation.IMG_HOST_FRAME (rows * cols * bpp)).1 = 0 →
        bufferInit drv sid rows cols bpp =
          ⟨[.createBuffer sid BufferLocation.IMG_HOST_FRAME (rows * cols * bpp)],
           .error (.unboundLocal ("dtype"))⟩) := by
  have hdt : bufferDtype bpp = none := by
    unfold bufferDtype
    split_ifs <;> simp_all
  constructor
  · unfold bufferInit
    split
    next status addr hp =>
      split
      next e he => rfl
      next he =>
        rw [hdt]
        rfl
  · intro hz
    unfold bufferInit
    split
    next status addr hp =>
      have hs : status = 0 := by rw [hp] at hz; exact hz
      rw [hs, check_error_zero, hdt]

/-- Witness for C7 (amended): at `bytes_per_pixel = 5`, shape `(2, 2)`,
succeeding driver, construction errors, concretely with the
unbound-`dtype` error after the 20-byte `imgCreateBuffer` call. -/
theorem c7_witness :
    isErr (bufferInit zeroDriver 5 2 2 5).out = true
    ∧ bufferInit zeroDriver 5 2 2 5 =
        ⟨[.createBuffer 5 0 20], .error (.unboundLocal ("dtype"))⟩ :=
  ⟨(c7_unbound_dtype_failure zeroDriver 5 2 2 5
      (by decide) (by decide) (by decide) (by decide)).1,
   (c7_unbound_dtype_failure zeroDriver 5 2 2 5
      (by decide) (by decide) (by decide) (by decide)).2 rfl⟩

lemma check_error_some_shape (drv : Driver) (r : Int) (fn ar : String) (e : PyError)
    (h : check_error drv r fn ar = some e) : ∃ msg, e = PyError.exceptionMsg msg := by
  unfold check_error at h
  split_ifs at h
  rw [Option.some.injEq] at h
  exact ⟨_, h.symm⟩

/-- Counterexample to claim C8: calling `set_attribute` with the
device-information (read-only category) attribute `IMG_ATTR_GETSERIAL`
does NOT fail with a read-only-attribute error caught before any driver
call: the raw `imgSetAttribute` driver call IS issued with that id, and
with a driver that accepts it the call succeeds outright. -/
theorem c8_counterexample :
    (set_attribute zeroDriver 5 DeviceInformation.IMG_ATTR_GETSERIAL 1).calls
      = [.setAttribute 5 DeviceInformation.IMG_ATTR_GETSERIAL 1]
    ∧ (set_attribute zeroDriver 5 DeviceInformation.IMG_ATTR_GETSERIAL 1).out = .ok ()
    ∧ DeviceInformation.IMG_ATTR_GETSERIAL ∈ deviceInformationIds :=
  ⟨rfl, rfl, by decide⟩

/-- Claim C8 as amended: `set_attribute` performs no attribute-category
validation.  For every attribute id in the device-information (read-only)
category it passes the raw id straight to the driver in an
`imgSetAttribute` call; the call fails only if the driver itself returns
a non-zero status, and then with the generic checked-call exception, not
a host-side read-only-attribute error. -/
theorem c8_no_readonly_check (drv : Driver) (sid value attr : Nat)
    (_hMem : attr ∈ deviceInformationIds) :
    (set_attribute drv sid attr value).calls = [.setAttribute sid attr value]
    ∧ ((set_attribute drv sid attr value).out = .ok ()
        ↔ drv.setAttributeRes sid attr value = 0)
    ∧ (∀ e, (set_attribute drv sid attr value).out = .error e →
        ∃ msg, e = PyError.exceptionMsg msg) := by
  refine ⟨set_attribute_calls drv sid attr value,
    set_attribute_ok_iff drv sid attr value, ?_⟩
  intro e he
  unfold set_attribute at he
  split at he
  next e2 he2 =>
    have he' : e2 = e := Except.error.inj he
    subst he'
    exact check_error_some_shape drv _ _ _ e2 he2
  next he2 => exact absurd he (by simp)

/-- Witness for C8 (amended) at the device-information attribute
`IMG_ATTR_CLOCK_FREQ`: the driver call is issued with the raw id and,
the driver status being 0, the call returns normally. -/
theorem c8_witness :
    (set_attribute zeroDriver 5 DeviceInformation.IMG_ATTR_CLOCK_FREQ 30).calls
      = [.setAttribute 5 DeviceInformation.IMG_ATTR_CLOCK_FREQ 30]
    ∧ ((set_attribute zeroDriver 5 DeviceInformation.IMG_ATTR_CLOCK_FREQ 30).out = .ok ()
        ↔ zeroDriver.setAttributeRes 5 DeviceInformation.IMG_ATTR_CLOCK_FREQ 30 = 0) :=
  ⟨(c8_no_readonly_check zeroDriver 5 30 DeviceInformation.IMG_ATTR_CLOCK_FREQ (by decide)).1,
   (c8_no_readonly_check zeroDriver 5 30 DeviceInformation.IMG_ATTR_CLOCK_FREQ (by decide)).2.1⟩

/-- Claim C3: `Board.close` is idempotent.  After a close that raised no
error, a second consecutive close issues no driver close call for either
the session or the interface handle, raises no error, and leaves the
object state unchanged (both handle fields are no longer truthy after a
successful close, so both guarded branches are skipped). -/
theorem c3_board_close_idempotent (drv drv2 : Driver) (st : BoardState)
    (free free2 : Bool) (h : (boardClose drv st free).err = none) :
    (boardClose drv2 (boardClose drv st free).state free2).calls = []
    ∧ (boardClose drv2 (boardClose drv st free).state free2).err = none
    ∧ (boardClose drv2 (boardClose drv st free).state free2).state
        = (boardClose drv st free).state := by
  unfold boardClose at h ⊢
  rcases h1 : closeHandle drv st.sid (if free then 1 else 0) with ⟨c1, e1, sid2⟩
  cases e1 with
  | some e =>
    rw [h1] at h
    exact absurd h (by simp)
  | none =>
    rcases h2 : closeHandle drv st.ifid (if free then 1 else 0) with ⟨c2, e2, ifid2⟩
    rw [h1, h2] at h
    dsimp only at h
    subst h
    have hs : truthy sid2 = false := by
      have hnt := closeHandle_no_err_not_truthy drv st.sid (if free then 1 else 0)
        (by rw [h1])
      rw [h1] at hnt
      exact hnt
    have hi : truthy ifid2 = false := by
      have hnt := closeHandle_no_err_not_truthy drv st.ifid (if free then 1 else 0)
        (by rw [h2])
      rw [h2] at hnt
      exact hnt
    rw [closeHandle_not_truthy drv2 sid2 (if free2 then 1 else 0) hs]
    dsimp only
    rw [closeHandle_not_truthy drv2 ifid2 (if free2 then 1 else 0) hi]
    exact ⟨rfl, rfl, rfl⟩

/-- Witness for C3: closing the board state `(ifid 7, sid 5)` with a
succeeding driver raises nothing, and the second close issues no calls
and raises nothing. -/
theorem c3_witness :
    (boardClose zeroDriver ⟨some 7, some 5, none⟩ true).err = none
    ∧ (boardClose zeroDriver
        (boardClose zeroDriver ⟨some 7, some 5, none⟩ true).state true).calls = []
    ∧ (boardClose zeroDriver
        (boardClose zeroDriver ⟨some 7, some 5, none⟩ true).state true).err = none :=
  ⟨rfl,
   (c3_board_close_idempotent zeroDriver zeroDriver ⟨some 7, some 5, none⟩ true true rfl).1,
   (c3_board_close_idempotent zeroDriver zeroDriver ⟨some 7, some 5, none⟩ true true rfl).2.1⟩

/-- Counterexample to claim C2: with a driver whose `imgInterfaceOpen`
succeeds (handle 7) and whose `imgSessionOpen` fails, `Board.__init__`
propagates the session-open failure WITHOUT issuing any driver close
call: the complete call trace is exactly interface-open followed by
session-open (no `imgClose`), and the object is left holding the open
interface handle. -/
theorem c2_counterexample :
    (boardInit failSessionDriver ("img0")).calls
      = [.interfaceOpen ("img0"), .sessionOpen 7]
    ∧ (boardInit failSessionDriver ("img0")).calls.filter DriverCall.isCloseCall = []
    ∧ (boardInit failSessionDriver ("img0")).result
        = .error (.exceptionMsg
            ("Error calling function imgSessionOpen with arguments 7 : Unable to open session."))
    ∧ (boardInit failSessionDriver ("img0")).objState = ⟨some 7, none, none⟩ :=
  ⟨rfl, rfl, rfl, rfl⟩

/-- Claim C2 as amended: when session-open fails after interface-open
succeeded, `Board.__init__` itself issues NO driver close call before the
failure propagates (there is no `try`/`except`); the object is left with
`_ifid` set and `_sid = None`, and the interface handle is closed only
later, when the finalizer (`__del__` → `close`) runs on that partial
state: that close then issues exactly `imgClose` on the interface
handle and clears the state. -/
theorem c2_deferred_interface_cleanup (drv : Driver) (name : String)
    (ifidVal : Nat) (status : Int) (sidVal : Nat)
    (hIf : drv.interfaceOpenRes name = (0, ifidVal))
    (hSess : drv.sessionOpenRes ifidVal = (status, sidVal))
    (hFail : status ≠ 0) :
    isErr (boardInit drv name).result = true
    ∧ (boardInit drv name).calls.filter DriverCall.isCloseCall = []
    ∧ (boardInit drv name).objState = ⟨some ifidVal, none, none⟩
    ∧ (ifidVal ≠ 0 →
        (boardClose drv (boardInit drv name).objState true).calls = [.close ifidVal 1])
    ∧ (ifidVal ≠ 0 → drv.closeRes ifidVal 1 = 0 →
        (boardClose drv (boardInit drv name).objState true).err = none
        ∧ (boardClose drv (boardInit drv name).objState true).state = ⟨none, none, none⟩) := by
  have hInit : boardInit drv name =
      ⟨[.interfaceOpen name, .sessionOpen ifidVal],
       .error (.exceptionMsg ("Error calling function " ++ "imgSessionOpen"
         ++ " with arguments " ++ toString ifidVal ++ " : " ++ drv.showError status)),
       ⟨some ifidVal, none, none⟩⟩ := by
    unfold boardInit
    split
    next status1 ifidVal2 hp =>
      rw [hIf] at hp
      injection hp with h01 hIv
      subst h01
      subst hIv
      split
      next e he =>
        rw [check_error_zero] at he
        exact Option.noConfusion he
      next he =>
        split
        next status2 sidVal2 hp2 =>
          rw [hSess] at hp2
          injection hp2 with hs2 hv2
          subst hs2
          subst hv2
          split
          next e2 he2 =>
            rw [check_error_of_ne drv status ("imgSessionOpen") (toString ifidVal) hFail] at he2
            rw [Option.some.injEq] at he2
            rw [← he2]
          next he2 =>
            rw [check_error_none_iff] at he2
            exact absurd he2 hFail
  rw [hInit]
  have hone : (if true = true then (1 : Nat) else 0) = 1 := rfl
  refine ⟨rfl, rfl, rfl, ?_, ?_⟩
  · intro hifid
    have ht : truthy (some ifidVal) = true := by simp [truthy, hifid]
    dsimp only [boardClose]
    rw [hone]
    rw [closeHandle_not_truthy drv none 1 rfl]
    dsimp only
    rw [closeHandle_truthy_calls drv (some ifidVal) 1 ht]
    rfl
  · intro hifid hz
    have ht : truthy (some ifidVal) = true := by simp [truthy, hifid]
    have hch : closeHandle drv (some ifidVal) 1 = ([.close ifidVal 1], none, none) := by
      unfold closeHandle
      rw [if_pos ht]
      rw [show ((some ifidVal).getD 0) = ifidVal from rfl]
      rw [hz, check_error_zero]
    dsimp only [boardClose]
    rw [hone]
    rw [closeHandle_not_truthy drv none 1 rfl]
    dsimp only
    rw [hch]
    exact ⟨rfl, rfl⟩

/-- Witness for C2 (amended) at `failSessionDriver`: init fails, and the
later finalizer-style `close` on the partial state issues exactly the
interface `imgClose` call and raises nothing. -/
theorem c2_witness :
    isErr (boardInit failSessionDriver ("img0")).result = true
    ∧ (boardClose failSessionDriver
        (boardInit failSessionDriver ("img0")).objState true).calls = [.close 7 1]
    ∧ (boardClose failSessionDriver
        (boardInit failSessionDriver ("img0")).objState true).err = none :=
  ⟨(c2_deferred_interface_cleanup failSessionDriver ("img0") 7 (-1074397163) 0
      rfl rfl (by decide)).1,
   (c2_deferred_interface_cleanup failSessionDriver ("img0") 7 (-1074397163) 0
      rfl rfl (by decide)).2.2.2.1 (by decide),
   ((c2_deferred_interface_cleanup failSessionDriver ("img0") 7 (-1074397163) 0
      rfl rfl (by decide)).2.2.2.2 (by decide) rfl).1⟩

end Imaq
